import Mathlib

/-!
Verification of the authenticated HTTP access layer of the ceph-mcp-server
repository (`src/ceph_mcp/api/base.py`): the token-lifecycle manager
(`CephTokenManager`) and the request dispatcher (`BaseCephClient._make_request`).

The Python classes are shallowly embedded as pure Lean functions:
- wall-clock time (`datetime.now()`) is an `Int` counting seconds and is
  passed explicitly; `timedelta(minutes=5)` becomes the constant `300`,
  `timedelta(seconds=t)` becomes `t`;
- the mutable fields `self.token` / `self.token_expires_at` become the record
  `MgrState`, and each method returns its updated state explicitly;
- the network is an oracle: the response the `/api/auth` endpoint would give
  (`AuthResponse`) and, for the dispatcher, the outcome of each attempt
  (`AttemptOutcome` per attempt index) are parameters;
- `raise` becomes an `Except` error value.  Since Python assigns
  `self.token` before possibly raising, `_authenticate` returns the updated
  state alongside the error;
- Python truthiness of `self.token` (`if not self.token`) is false exactly
  for `none` and `some ""`.
-/

namespace CephMcp

/-- Mutable token state of `CephTokenManager`: the fields `self.token` and
`self.token_expires_at` (the expiry is an absolute time in seconds). -/
structure MgrState where
  token : Option String
  token_expires_at : Option Int
deriving Repr, DecidableEq

/-- `self.token_refresh_buffer = timedelta(minutes=5)`, in seconds. -/
def token_refresh_buffer : Int := 300

/-- Python truthiness test `not self.token`: true for `None` and `""`. -/
def tokenFalsy : Option String → Bool
  | none => true
  | some t => t = ""

/-- `CephTokenManager._token_needs_refresh`: true when the token or the expiry
is missing (or the token is falsy), else when `now >= expires_at - buffer`. -/
def token_needs_refresh (s : MgrState) (now : Int) : Bool :=
  if tokenFalsy s.token then true
  else
    match s.token_expires_at with
    | none => true
    | some exp => decide (now ≥ exp - token_refresh_buffer)

/-- JSON body of a response from the `/api/auth` endpoint, as read by
`_authenticate`: `auth_data.get("token")`, `auth_data.get("ttl", 28800)` and,
on the generic-failure path, `error_data.get("detail")`.  `detail = none`
also covers an unparseable body (the `except httpx.HTTPError: pass`). -/
structure AuthBody where
  token : Option String
  ttl : Option Int
  detail : Option String
deriving Repr, DecidableEq

/-- What the authentication POST yields: a transport-level failure
(`httpx.RequestError`) or an HTTP response with a status code and body. -/
inductive AuthResponse where
  | transportError (msg : String)
  | http (status : Nat) (body : AuthBody)
deriving Repr, DecidableEq

/-- The distinct `CephAuthenticationError` raise sites of `base.py`. -/
inductive AuthErr where
  /-- "No token received from authentication endpoint" -/
  | noToken
  /-- HTTP 400: "Invalid credentials provided" -/
  | invalidCredentials
  /-- HTTP 401: "Authentication failed - check username and password" -/
  | checkCredentials
  /-- other status: "Authentication failed with status {status}" + detail -/
  | otherStatus (status : Nat) (detail : Option String)
  /-- `httpx.RequestError`: "Network error during authentication: {e}" -/
  | networkError (msg : String)
  /-- `get_token`: "Failed to obtain authentication token" -/
  | failedToObtain
  /-- `get_auth_headers`: "No authentication token available" -/
  | noTokenAvailable
deriving Repr, DecidableEq

/-- `CephTokenManager._authenticate`, given the current state, the current
time, and the response the auth endpoint produces.  Returns the new state
(Python mutates `self.token` before it can raise on a missing token) together
with success or the raised `CephAuthenticationError`. -/
def authenticate (s : MgrState) (now : Int) (resp : AuthResponse) :
    MgrState × Except AuthErr Unit :=
  match resp with
  | .transportError msg => (s, .error (.networkError msg))
  | .http status body =>
    if status = 201 then
      -- self.token = auth_data.get("token"); if not self.token: raise
      let s1 : MgrState := { s with token := body.token }
      if tokenFalsy body.token then
        (s1, .error .noToken)
      else
        -- expires_in = auth_data.get("ttl", 28800)
        let expires_in := body.ttl.getD 28800
        ({ s1 with token_expires_at := some (now + expires_in) }, .ok ())
    else if status = 400 then (s, .error .invalidCredentials)
    else if status = 401 then (s, .error .checkCredentials)
    else (s, .error (.otherStatus status body.detail))

/-- `CephTokenManager.get_token`: refresh if needed, then return the token or
raise.  The final `Bool` records whether `_authenticate` was invoked (the
Python method calls it at most once per `get_token` call). -/
def get_token (s : MgrState) (now : Int) (resp : AuthResponse) :
    MgrState × Except AuthErr String × Bool :=
  if token_needs_refresh s now then
    match authenticate s now resp with
    | (s1, .error e) => (s1, .error e, true)
    | (s1, .ok ()) =>
      if tokenFalsy s1.token then (s1, .error .failedToObtain, true)
      else (s1, .ok (s1.token.getD ""), true)
  else
    if tokenFalsy s.token then (s, .error .failedToObtain, false)
    else (s, .ok (s.token.getD ""), false)

/-- `settings.mcp_server_name` (default value from `settings.py`). -/
def mcp_server_name : String := "ceph-storage-assistant"

/-- `settings.mcp_server_version` as its rendered string (configuration
value, opaque to the logic under verification). -/
def mcp_server_version : String := "0.1.0"

/-- `CephTokenManager.get_auth_headers`: raises when no (truthy) token is
held, else returns the three headers. -/
def get_auth_headers (s : MgrState) : Except AuthErr (List (String × String)) :=
  if tokenFalsy s.token then .error .noTokenAvailable
  else
    .ok [("Authorization", "Bearer " ++ s.token.getD ""),
         ("Content-Type", "application/json"),
         ("User-Agent", mcp_server_name ++ "/" ++ mcp_server_version)]

/-! ## Request dispatcher (`BaseCephClient._make_request`) -/

/-- Outcome of one iteration of the attempt loop, as seen by the dispatcher's
control flow: `get_token()` raised a `CephAuthenticationError`, or the
HTTP request raised an `httpx.RequestError`, or it produced a response with
a status code and a body (returned as the payload on status 200). -/
inductive AttemptOutcome where
  | authError (e : AuthErr)
  | transportError (msg : String)
  | http (status : Nat) (body : String)
deriving Repr, DecidableEq

/-- The distinct `CephAPIError` raise sites of `_make_request`, plus the
propagated `CephAuthenticationError` (which `except httpx.RequestError`
does not catch, so it escapes the loop at once). -/
inductive APIErr where
  /-- 401: "Authentication failed. Check username and password." -/
  | unauthorized
  /-- 403: "Access forbidden. Check user permissions." -/
  | forbidden
  /-- 404: "Endpoint not found: {endpoint}" -/
  | notFound (endpoint : String)
  /-- ≥500 on the last attempt: "Server error: {status}" -/
  | serverError (status : Nat)
  /-- `httpx.RequestError` on the last attempt:
  "Request failed after {max_retries} attempts: {e}" -/
  | networkFailure (msg : String)
  /-- other status: "Unexpected response: {status}" -/
  | unexpected (status : Nat)
  /-- fall-through after the loop:
  "Request failed after {max_retries} attempts" -/
  | retriesExhausted
  /-- a `CephAuthenticationError` propagating out of `get_token()` -/
  | authFailure (e : AuthErr)
deriving Repr, DecidableEq

/-- The `for attempt in range(max_retries)` loop of `_make_request`, entered
at index `attempt`.  `outcomes i` is what attempt `i` yields.  Returns the
result (payload or raised error), the number of loop iterations entered, and
the list of backoff sleeps (`asyncio.sleep(2**attempt)`) in order, in
seconds. -/
def dispatch_go (endpoint : String) (maxRetries : Nat)
    (outcomes : Nat → AttemptOutcome) (attempt : Nat) :
    Except APIErr String × Nat × List Nat :=
  if _h : attempt < maxRetries then
    match outcomes attempt with
    | .authError e => (.error (.authFailure e), attempt + 1, [])
    | .http status body =>
      if status = 200 then (.ok body, attempt + 1, [])
      else if status = 401 then (.error .unauthorized, attempt + 1, [])
      else if status = 403 then (.error .forbidden, attempt + 1, [])
      else if status = 404 then (.error (.notFound endpoint), attempt + 1, [])
      else if status ≥ 500 then
        if attempt < maxRetries - 1 then
          let r := dispatch_go endpoint maxRetries outcomes (attempt + 1)
          (r.1, r.2.1, 2 ^ attempt :: r.2.2)
        else (.error (.serverError status), attempt + 1, [])
      else (.error (.unexpected status), attempt + 1, [])
    | .transportError msg =>
      if attempt < maxRetries - 1 then
        let r := dispatch_go endpoint maxRetries outcomes (attempt + 1)
        (r.1, r.2.1, 2 ^ attempt :: r.2.2)
      else (.error (.networkFailure msg), attempt + 1, [])
  else
    -- line 312: "This should never be reached, but just in case"
    (.error .retriesExhausted, attempt, [])
termination_by maxRetries - attempt

/-- `BaseCephClient._make_request` from the top of the loop. -/
def dispatch (endpoint : String) (maxRetries : Nat)
    (outcomes : Nat → AttemptOutcome) : Except APIErr String × Nat × List Nat :=
  dispatch_go endpoint maxRetries outcomes 0

/-- An attempt outcome the dispatcher treats as transient: a 5xx response or
a transport-level error. -/
def isTransient : AttemptOutcome → Bool
  | .authError _ => false
  | .transportError _ => true
  | .http status _ => 500 ≤ status

/-! ## Dispatcher lemmas -/

/-- A transient attempt strictly before the last one sleeps `2^attempt`
seconds and continues with the next attempt. -/
lemma dispatch_go_transient_step (e : String) (mr : Nat) (out : Nat → AttemptOutcome)
    (attempt : Nat) (hlt : attempt < mr - 1) (ht : isTransient (out attempt) = true) :
    dispatch_go e mr out attempt =
      ((dispatch_go e mr out (attempt + 1)).1, (dispatch_go e mr out (attempt + 1)).2.1,
       2 ^ attempt :: (dispatch_go e mr out (attempt + 1)).2.2) := by
  have hmr : attempt < mr := by omega
  rw [dispatch_go]
  cases hout : out attempt with
  | authError e' => rw [hout] at ht; simp [isTransient] at ht
  | transportError m => simp [dif_pos hmr, hlt]
  | http s b =>
    rw [hout] at ht
    have h5 : 500 ≤ s := by simpa [isTransient] using ht
    have h200 : ¬ (s = 200) := by omega
    have h401 : ¬ (s = 401) := by omega
    have h403 : ¬ (s = 403) := by omega
    have h404 : ¬ (s = 404) := by omega
    simp [dif_pos hmr, h200, h401, h403, h404, h5, hlt]

/-- On the last attempt a transient failure is raised instead of retried:
`networkFailure` for a transport error, `serverError` for a 5xx status. -/
lemma dispatch_go_last (e : String) (mr : Nat) (out : Nat → AttemptOutcome)
    (attempt : Nat) (hlast : attempt + 1 = mr) :
    (∀ m, out attempt = .transportError m →
      dispatch_go e mr out attempt = (.error (.networkFailure m), mr, [])) ∧
    (∀ s b, 500 ≤ s → out attempt = .http s b →
      dispatch_go e mr out attempt = (.error (.serverError s), mr, [])) := by
  have hmr : attempt < mr := by omega
  have hnlt : ¬ (attempt < mr - 1) := by omega
  constructor
  · intro m hout
    rw [dispatch_go]
    simp [dif_pos hmr, hout, hnlt, hlast]
  · intro s b h5 hout
    have h200 : ¬ (s = 200) := by omega
    have h401 : ¬ (s = 401) := by omega
    have h403 : ¬ (s = 403) := by omega
    have h404 : ¬ (s = 404) := by omega
    rw [dispatch_go]
    simp [dif_pos hmr, hout, h200, h401, h403, h404, h5, hnlt, hlast]

/-- Running the loop from `attempt` over transient attempts up to (but not
including) `k` reaches attempt `k`, accumulating the backoff sleeps
`2^attempt, …, 2^(k-1)` in front of whatever attempt `k` produces. -/
lemma dispatch_go_skip (e : String) (mr : Nat) (out : Nat → AttemptOutcome) (k : Nat)
    (hk : k < mr) :
    ∀ n attempt, k - attempt ≤ n → attempt ≤ k →
      (∀ i, attempt ≤ i → i < k → isTransient (out i) = true) →
      dispatch_go e mr out attempt =
        ((dispatch_go e mr out k).1, (dispatch_go e mr out k).2.1,
         (List.range' attempt (k - attempt)).map (fun i => 2 ^ i) ++
           (dispatch_go e mr out k).2.2) := by
  intro n
  induction n with
  | zero =>
    intro attempt h0 h1 _
    have hak : attempt = k := by omega
    subst hak
    simp
  | succ n ih =>
    intro attempt h0 h1 htr
    rcases Nat.eq_or_lt_of_le h1 with hak | hak
    · subst hak
      simp
    · rw [dispatch_go_transient_step e mr out attempt (by omega) (htr attempt le_rfl hak),
        ih (attempt + 1) (by omega) (by omega) (fun i hi1 hi2 => htr i (by omega) hi2)]
      have hr : k - attempt = (k - (attempt + 1)) + 1 := by omega
      rw [hr, List.range'_succ, List.map_cons, List.cons_append]

/-- C1: if every attempt fails transiently (HTTP status ≥ 500 or a
transport-level error), the dispatcher makes exactly `maxRetries` attempts,
sleeps `2^0, …, 2^(maxRetries-2)` seconds after each failed attempt except
the last, and fails with `serverError` carrying the status (5xx case) or
`networkFailure` wrapping the last error message (transport case). -/
theorem claim_C1_transient_exhaustion (e : String) (mr : Nat) (out : Nat → AttemptOutcome)
    (hmr : 1 ≤ mr) (htr : ∀ i, i < mr → isTransient (out i) = true) :
    (dispatch e mr out).2.1 = mr ∧
    (dispatch e mr out).2.2 = (List.range (mr - 1)).map (fun i => 2 ^ i) ∧
    (∀ m, out (mr - 1) = .transportError m →
      (dispatch e mr out).1 = .error (.networkFailure m)) ∧
    (∀ s b, out (mr - 1) = .http s b →
      (dispatch e mr out).1 = .error (.serverError s)) := by
  have hk : mr - 1 < mr := by omega
  have hskip := dispatch_go_skip e mr out (mr - 1) hk (mr - 1) 0 (by omega) (by omega)
    (fun i _ hi2 => htr i (by omega))
  have hlast := dispatch_go_last e mr out (mr - 1) (by omega)
  have htrlast := htr (mr - 1) hk
  rw [dispatch, hskip]
  cases hout : out (mr - 1) with
  | authError e' => rw [hout] at htrlast; simp [isTransient] at htrlast
  | transportError m =>
    rw [hlast.1 m hout]
    refine ⟨rfl, by simp [List.range_eq_range'], ?_, ?_⟩
    · intro m' hm'
      cases hm'
      rfl
    · intro s b hsb
      cases hsb
  | http s b =>
    have h5 : 500 ≤ s := by
      rw [hout] at htrlast
      simpa [isTransient] using htrlast
    rw [hlast.2 s b h5 hout]
    refine ⟨rfl, by simp [List.range_eq_range'], ?_, ?_⟩
    · intro m' hm'
      cases hm'
    · intro s' b' hsb
      cases hsb
      rfl

/-- Witness for C1: three attempts all answering HTTP 500 give exactly 3
attempts, sleeps `[1, 2]`, and a `serverError 500` failure. -/
theorem claim_C1_witness :
    (dispatch "e" 3 (fun _ => AttemptOutcome.http 500 "b")).2.1 = 3 ∧
    (dispatch "e" 3 (fun _ => AttemptOutcome.http 500 "b")).2.2 = [1, 2] ∧
    (dispatch "e" 3 (fun _ => AttemptOutcome.http 500 "b")).1 =
      .error (.serverError 500) := by
  obtain ⟨h1, h2, _, h4⟩ :=
    claim_C1_transient_exhaustion "e" 3 (fun _ => AttemptOutcome.http 500 "b")
      (by omega) (fun i _ => rfl)
  exact ⟨h1, h2.trans (by decide), h4 500 "b" rfl⟩

/-- C4: a first attempt answering 401, 403, 404, or any other non-5xx
non-200 status makes the dispatcher fail immediately with the corresponding
error (`unauthorized`, `forbidden`, `notFound` carrying the endpoint, or
`unexpected` with the status), after exactly 1 attempt, with no backoff
sleep and no retry, regardless of `maxRetries`. -/
theorem claim_C4_permanent_no_retry (e b : String) (mr s : Nat) (out : Nat → AttemptOutcome)
    (hmr : 1 ≤ mr) (h0 : out 0 = .http s b) (h200 : s ≠ 200) (h5 : s < 500) :
    (dispatch e mr out).2.1 = 1 ∧ (dispatch e mr out).2.2 = [] ∧
    (s = 401 → (dispatch e mr out).1 = .error .unauthorized) ∧
    (s = 403 → (dispatch e mr out).1 = .error .forbidden) ∧
    (s = 404 → (dispatch e mr out).1 = .error (.notFound e)) ∧
    (s ≠ 401 → s ≠ 403 → s ≠ 404 → (dispatch e mr out).1 = .error (.unexpected s)) := by
  have h1 : 0 < mr := hmr
  have h5' : ¬ (500 ≤ s) := by omega
  rw [dispatch, dispatch_go]
  simp only [dif_pos h1, h0]
  by_cases h401 : s = 401
  · subst h401
    simp
  by_cases h403 : s = 403
  · subst h403
    simp
  by_cases h404 : s = 404
  · subst h404
    simp
  simp [h200, h401, h403, h404, h5']

/-- Witness for C4: HTTP 401 on the first of 5 allowed attempts fails at once
with `unauthorized`, 1 attempt, no sleeps. -/
theorem claim_C4_witness :
    (dispatch "e" 5 (fun _ => AttemptOutcome.http 401 "b")).2.1 = 1 ∧
    (dispatch "e" 5 (fun _ => AttemptOutcome.http 401 "b")).2.2 = [] ∧
    (dispatch "e" 5 (fun _ => AttemptOutcome.http 401 "b")).1 = .error .unauthorized := by
  obtain ⟨h1, h2, h3, -, -, -⟩ :=
    claim_C4_permanent_no_retry "e" "b" 5 401 (fun _ => AttemptOutcome.http 401 "b")
      (by omega) rfl (by omega) (by omega)
  exact ⟨h1, h2, h3 rfl⟩

/-- C6: a `CephAuthenticationError` raised while obtaining the token in
attempt `k` (after `k` transient attempts) propagates immediately: the
dispatcher performs no further attempt, and sleeps only the `k` backoffs
that preceded the authentication failure. -/
theorem claim_C6_auth_error_propagates (e : String) (mr : Nat) (out : Nat → AttemptOutcome)
    (k : Nat) (err : AuthErr) (hk : k < mr)
    (hprev : ∀ i, i < k → isTransient (out i) = true)
    (hout : out k = .authError err) :
    dispatch e mr out =
      (.error (.authFailure err), k + 1, (List.range k).map (fun i => 2 ^ i)) := by
  have hlast : dispatch_go e mr out k = (.error (.authFailure err), k + 1, []) := by
    rw [dispatch_go]
    simp [dif_pos hk, hout]
  rw [dispatch,
    dispatch_go_skip e mr out k hk k 0 (by omega) (by omega) (fun i _ hi2 => hprev i hi2),
    hlast]
  simp [List.range_eq_range']

/-- Witness for C6: an authentication failure on the first attempt with
`maxRetries = 3` gives exactly 1 attempt, no sleeps, and the propagated
authentication error. -/
theorem claim_C6_witness :
    dispatch "e" 3 (fun _ => AttemptOutcome.authError .checkCredentials) =
      (.error (.authFailure .checkCredentials), 1, []) := by
  have h := claim_C6_auth_error_propagates "e" 3
    (fun _ => AttemptOutcome.authError .checkCredentials) 0 .checkCredentials
    (by omega) (fun i hi => absurd hi (by omega)) rfl
  simpa using h

/-- C8: with `maxRetries ≥ 1` every loop iteration either returns or raises,
so the fall-through `retriesExhausted` failure is unreachable; it is reached
exactly in the degenerate case `maxRetries = 0`, where the dispatcher fails
with 0 attempts (no HTTP request issued). -/
theorem claim_C8_exhausted_unreachable (e : String) (mr : Nat) (out : Nat → AttemptOutcome)
    (hmr : 1 ≤ mr) :
    (dispatch e mr out).1 ≠ .error .retriesExhausted ∧
    dispatch e 0 out = (.error .retriesExhausted, 0, []) := by
  constructor
  · have main : ∀ n attempt, mr - attempt ≤ n → attempt < mr →
        (dispatch_go e mr out attempt).1 ≠ .error .retriesExhausted := by
      intro n
      induction n with
      | zero => intro attempt h0 h1; omega
      | succ n ih =>
        intro attempt h0 h1
        rw [dispatch_go]
        simp only [dif_pos h1]
        cases hout : out attempt with
        | authError e' => simp
        | transportError m =>
          by_cases hlt : attempt < mr - 1
          · simpa [hlt] using ih (attempt + 1) (by omega) (by omega)
          · simp [hlt]
        | http s b =>
          by_cases h200 : s = 200
          · simp [h200]
          by_cases h401 : s = 401
          · simp [h200, h401]
          by_cases h403 : s = 403
          · simp [h200, h401, h403]
          by_cases h404 : s = 404
          · simp [h200, h401, h403, h404]
          by_cases h5 : 500 ≤ s
          · by_cases hlt : attempt < mr - 1
            · simpa [h200, h401, h403, h404, h5, hlt] using ih (attempt + 1) (by omega) (by omega)
            · simp [h200, h401, h403, h404, h5, hlt]
          · simp [h200, h401, h403, h404, h5]
    exact main mr 0 (by omega) hmr
  · rw [dispatch, dispatch_go]
    simp

/-- Witness for C8: with `maxRetries = 1` the result is never
`retriesExhausted`; with `maxRetries = 0` it is, with 0 attempts. -/
theorem claim_C8_witness :
    (dispatch "e" 1 (fun _ => AttemptOutcome.http 200 "b")).1 ≠
      .error .retriesExhausted ∧
    dispatch "e" 0 (fun _ => AttemptOutcome.http 200 "b") =
      (.error .retriesExhausted, 0, []) :=
  claim_C8_exhausted_unreachable "e" 1 (fun _ => AttemptOutcome.http 200 "b") (by omega)

/-! ## Token-manager lemmas -/

/-- If no refresh is needed, a truthy token and an expiry are held and the
current time is strictly before the buffered expiry. -/
lemma needs_refresh_false_inv (s : MgrState) (now : Int)
    (h : token_needs_refresh s now = false) :
    tokenFalsy s.token = false ∧
    ∃ exp, s.token_expires_at = some exp ∧ now < exp - token_refresh_buffer := by
  by_cases hf : tokenFalsy s.token
  · simp [token_needs_refresh, hf] at h
  · refine ⟨by simpa using hf, ?_⟩
    cases hexp : s.token_expires_at with
    | none => simp [token_needs_refresh, hf, hexp] at h
    | some exp =>
      refine ⟨exp, rfl, ?_⟩
      simp [token_needs_refresh, hf, hexp] at h
      omega

/-- `_authenticate` succeeds only on a 201 response carrying a truthy token,
and then stores that token with expiry `now + ttl` (default 28800). -/
lemma authenticate_ok_inv (s : MgrState) (now : Int) (resp : AuthResponse)
    (h : (authenticate s now resp).2 = .ok ()) :
    ∃ body tok, resp = .http 201 body ∧ body.token = some tok ∧ tok ≠ "" ∧
      (authenticate s now resp).1 =
        ⟨some tok, some (now + body.ttl.getD 28800)⟩ := by
  cases resp with
  | transportError m => simp [authenticate] at h
  | http status body =>
    by_cases h201 : status = 201
    · subst h201
      cases htok : body.token with
      | none => simp [authenticate, htok, tokenFalsy] at h
      | some tok =>
        by_cases hne : tok = ""
        · simp [authenticate, htok, tokenFalsy, hne] at h
        · exact ⟨body, tok, rfl, htok, hne, by simp [authenticate, htok, tokenFalsy, hne]⟩
    · by_cases h400 : status = 400
      · simp [authenticate, h201, h400] at h
      · by_cases h401 : status = 401
        · simp [authenticate, h201, h400, h401] at h
        · simp [authenticate, h201, h400, h401] at h

/-- C2: while `now < expiresAt - refreshBuffer` and a (truthy) token is held,
`get_token` returns the stored token without calling `_authenticate` and
leaves the state — in particular `token_expires_at` — unchanged, so repeated
calls in the buffer window are idempotent; and any call at
`now ≥ expiresAt - refreshBuffer` invokes `_authenticate` (exactly once,
since `get_token` calls it at most once) before returning. -/
theorem claim_C2_buffer_window (s : MgrState) (now : Int) (resp : AuthResponse)
    (tok : String) (exp : Int) (htok : s.token = some tok) (hne : tok ≠ "")
    (hexp : s.token_expires_at = some exp) (hlt : now < exp - token_refresh_buffer) :
    get_token s now resp = (s, .ok tok, false) ∧
    (∀ now2 resp2, exp - token_refresh_buffer ≤ now2 →
      (get_token s now2 resp2).2.2 = true) := by
  have hfalsy : tokenFalsy s.token = false := by simp [htok, tokenFalsy, hne]
  have hn : token_needs_refresh s now = false := by
    simp [token_needs_refresh, hfalsy, hexp]
    omega
  refine ⟨by simp [get_token, hn, hfalsy, htok, tokenFalsy, hne], ?_⟩
  intro now2 resp2 h2
  have hn2 : token_needs_refresh s now2 = true := by
    simp [token_needs_refresh, hfalsy, hexp]
    omega
  rcases hauth : authenticate s now2 resp2 with ⟨s1, r⟩
  cases r with
  | error err => simp [get_token, hn2, hauth]
  | ok u =>
    cases u
    by_cases hf1 : tokenFalsy s1.token <;> simp [get_token, hn2, hauth, hf1]

/-- Witness for C2: token `"abc"` expiring at 1000 with buffer 300; at time 0
the token is returned unchanged with no authentication, and at time 900 an
authentication is triggered. -/
theorem claim_C2_witness :
    get_token ⟨some "abc", some 1000⟩ 0 (.http 201 ⟨none, none, none⟩) =
      (⟨some "abc", some 1000⟩, .ok "abc", false) ∧
    (get_token ⟨some "abc", some 1000⟩ 900 (.http 201 ⟨some "t2", none, none⟩)).2.2 =
      true := by
  obtain ⟨h1, h2⟩ := claim_C2_buffer_window ⟨some "abc", some 1000⟩ 0
    (.http 201 ⟨none, none, none⟩) "abc" 1000 rfl (by decide) rfl (by decide)
  exact ⟨h1, h2 900 _ (by decide)⟩

/-- C3: a successful authentication (HTTP 201, truthy token) at time `now`
stores expiry `now + 28800` when the body omits `ttl`, and `now + T` when it
supplies `ttl = T`. -/
theorem claim_C3_ttl_default (s : MgrState) (now : Int) (tok : String)
    (detail : Option String) (hne : tok ≠ "") :
    authenticate s now (.http 201 ⟨some tok, none, detail⟩) =
      (⟨some tok, some (now + 28800)⟩, .ok ()) ∧
    (∀ T : Int, authenticate s now (.http 201 ⟨some tok, some T, detail⟩) =
      (⟨some tok, some (now + T)⟩, .ok ())) := by
  constructor
  · simp [authenticate, tokenFalsy, hne]
  · intro T
    simp [authenticate, tokenFalsy, hne]

/-- Witness for C3: token `"abc"` at time 100 with `ttl` absent expires at
`100 + 28800 = 28900`; with `ttl = 60` it expires at 160. -/
theorem claim_C3_witness :
    authenticate ⟨none, none⟩ 100 (.http 201 ⟨some "abc", none, none⟩) =
      (⟨some "abc", some 28900⟩, .ok ()) ∧
    authenticate ⟨none, none⟩ 100 (.http 201 ⟨some "abc", some 60, none⟩) =
      (⟨some "abc", some 160⟩, .ok ()) := by
  obtain ⟨h1, h2⟩ := claim_C3_ttl_default ⟨none, none⟩ 100 "abc" none (by decide)
  refine ⟨by simpa using h1, by simpa using h2 60⟩

/-- Counterexample to C5 as stated: HTTP 200 is a 2xx status and the body
carries token `"abc"`, yet `_authenticate` (which accepts only 201) fails
with a generic status error and stores nothing. -/
theorem claim_C5_counterexample :
    authenticate ⟨none, none⟩ 0 (.http 200 ⟨some "abc", some 60, none⟩) =
      (⟨none, none⟩, .error (.otherStatus 200 none)) := rfl

/-- C5 amended: for every `_authenticate` call whose HTTP response has
status 201 (not any 2xx) and whose body contains a non-empty token, the
token is stored, the expiry becomes `now + ttl` (ttl from the response,
default 28800 s), and the call succeeds. -/
theorem claim_C5_amended_201_success (s : MgrState) (now : Int) (tok : String)
    (ttlOpt : Option Int) (detail : Option String) (hne : tok ≠ "") :
    authenticate s now (.http 201 ⟨some tok, ttlOpt, detail⟩) =
      (⟨some tok, some (now + ttlOpt.getD 28800)⟩, .ok ()) := by
  simp [authenticate, tokenFalsy, hne]

/-- Witness for amended C5: a 201 response with token `"abc"` and `ttl = 60`
at time 0 stores the token with expiry 60 and succeeds. -/
theorem claim_C5_witness :
    authenticate ⟨none, none⟩ 0 (.http 201 ⟨some "abc", some 60, none⟩) =
      (⟨some "abc", some 60⟩, .ok ()) := by
  simpa using claim_C5_amended_201_success ⟨none, none⟩ 0 "abc" (some 60) none (by decide)

/-- Counterexample to C7 as stated: with no token held at time 0, a fresh
authentication answering `ttl = 60` makes `get_token` return `"abc"` while
the stored buffered expiry `60 - 300` is already in the past at the moment
of return — `get_token` does return a token whose buffered expiry has
passed. -/
theorem claim_C7_counterexample :
    (get_token ⟨none, none⟩ 0 (.http 201 ⟨some "abc", some 60, none⟩)).2.1 =
      .ok "abc" ∧
    (get_token ⟨none, none⟩ 0 (.http 201 ⟨some "abc", some 60, none⟩)).1.token_expires_at =
      some 60 ∧
    (60 : Int) - token_refresh_buffer ≤ 0 :=
  ⟨rfl, rfl, by decide⟩

/-- C7 amended: every value `get_token` returns is a non-empty token, and a
missing (falsy) token always triggers authentication.  The buffered expiry
has not passed at the moment of return whenever the stored token was reused
(no authentication); when the token was freshly obtained, the stored expiry
is exactly `now + ttl` (default 28800), which is past the buffered-expiry
threshold whenever `ttl ≤ refreshBuffer`. -/
theorem claim_C7_amended_nonempty (s : MgrState) (now : Int) (resp : AuthResponse)
    (tok : String) (h : (get_token s now resp).2.1 = .ok tok) :
    tok ≠ "" ∧
    (tokenFalsy s.token = true → (get_token s now resp).2.2 = true) ∧
    ((get_token s now resp).2.2 = false →
      (get_token s now resp).1 = s ∧ s.token = some tok ∧
      ∃ exp, s.token_expires_at = some exp ∧ now < exp - token_refresh_buffer) ∧
    ((get_token s now resp).2.2 = true →
      ∃ body, resp = .http 201 body ∧ body.token = some tok ∧
        (get_token s now resp).1.token_expires_at =
          some (now + body.ttl.getD 28800)) := by
  by_cases hn : token_needs_refresh s now
  · rcases hauth : authenticate s now resp with ⟨s1, r⟩
    cases r with
    | error err => simp [get_token, hn, hauth] at h
    | ok u =>
      cases u
      obtain ⟨body, tok', hresp, htok', hne', hs1⟩ :=
        authenticate_ok_inv s now resp (by rw [hauth])
      rw [hauth] at hs1
      subst hs1
      have hval : tok' = tok := by
        simp [get_token, hn, hauth, tokenFalsy, hne'] at h
        exact h
      subst hval
      refine ⟨hne', fun _ => by simp [get_token, hn, hauth, tokenFalsy, hne'], ?_, ?_⟩
      · intro hfalse
        simp [get_token, hn, hauth, tokenFalsy, hne'] at hfalse
      · intro _
        exact ⟨body, hresp, htok', by simp [get_token, hn, hauth, tokenFalsy, hne']⟩
  · have hn' : token_needs_refresh s now = false := by simpa using hn
    obtain ⟨hfalsy, exp, hexp, hbound⟩ := needs_refresh_false_inv s now hn'
    cases htok : s.token with
    | none => simp [tokenFalsy, htok] at hfalsy
    | some tok' =>
      have hne' : tok' ≠ "" := by simpa [tokenFalsy, htok] using hfalsy
      have hval : tok' = tok := by
        simp [get_token, hn', htok, tokenFalsy, hne'] at h
        exact h
      subst hval
      refine ⟨hne', ?_, ?_, ?_⟩
      · intro hcon
        rw [← htok, hfalsy] at hcon
        cases hcon
      · intro _
        exact ⟨by simp [get_token, hn', htok, tokenFalsy, hne'], rfl, exp, hexp, hbound⟩
      · intro hcon
        simp [get_token, hn', htok, tokenFalsy, hne'] at hcon

/-- Witness for amended C7: reusing the stored token `"abc"` (expiry 1000,
time 0) returns a non-empty token without authentication, with the buffered
expiry still in the future. -/
theorem claim_C7_witness :
    ¬ ("abc" = "") ∧
    (get_token ⟨some "abc", some 1000⟩ 0 (.http 201 ⟨none, none, none⟩)).1 =
      ⟨some "abc", some 1000⟩ := by
  obtain ⟨h1, -, h3, -⟩ := claim_C7_amended_nonempty ⟨some "abc", some 1000⟩ 0
    (.http 201 ⟨none, none, none⟩) "abc" rfl
  exact ⟨h1, (h3 rfl).1⟩

/-- C9: an `_authenticate` call whose response has a status other than 201
(or which fails at transport level) raises and leaves `token` and
`token_expires_at` exactly as they were, so a previously held token remains
available to `get_auth_headers`. -/
theorem claim_C9_failed_auth_frame (s : MgrState) (now : Int) (resp : AuthResponse)
    (h : ∀ status body, resp = .http status body → status ≠ 201) :
    (authenticate s now resp).1 = s ∧
    (∃ e, (authenticate s now resp).2 = .error e) ∧
    get_auth_headers (authenticate s now resp).1 = get_auth_headers s := by
  cases resp with
  | transportError m => exact ⟨rfl, ⟨.networkError m, rfl⟩, rfl⟩
  | http status body =>
    have h201 : ¬ (status = 201) := h status body rfl
    by_cases h400 : status = 400
    · simp [authenticate, h201, h400]
    · by_cases h401 : status = 401
      · simp [authenticate, h201, h400, h401]
      · simp [authenticate, h201, h400, h401]

/-- Witness for C9: a 400 (bad credentials) answer leaves the previously
held token `"old"` and its expiry untouched and still usable for headers. -/
theorem claim_C9_witness :
    (authenticate ⟨some "old", some 999⟩ 0 (.http 400 ⟨none, none, none⟩)).1 =
      ⟨some "old", some 999⟩ ∧
    (∃ e, (authenticate ⟨some "old", some 999⟩ 0 (.http 400 ⟨none, none, none⟩)).2 =
      .error e) ∧
    get_auth_headers (authenticate ⟨some "old", some 999⟩ 0
        (.http 400 ⟨none, none, none⟩)).1 =
      get_auth_headers ⟨some "old", some 999⟩ :=
  claim_C9_failed_auth_frame ⟨some "old", some 999⟩ 0 (.http 400 ⟨none, none, none⟩)
    (fun st b hb => by cases hb; omega)

/-- C10: a 201 response whose body lacks a token (or carries an empty one)
makes `_authenticate` fail with the "no token received" error after having
already overwritten `token` with the falsy value, while `token_expires_at`
keeps its previous value — the failure is not atomic — and afterwards
`get_auth_headers` fails with the "no token available" error. -/
theorem claim_C10_missing_token_clobbers (s : MgrState) (now : Int) (body : AuthBody)
    (h : body.token = none ∨ body.token = some "") :
    (authenticate s now (.http 201 body)).2 = .error .noToken ∧
    (authenticate s now (.http 201 body)).1.token = body.token ∧
    (authenticate s now (.http 201 body)).1.token_expires_at = s.token_expires_at ∧
    get_auth_headers (authenticate s now (.http 201 body)).1 =
      .error .noTokenAvailable := by
  have hfalsy : tokenFalsy body.token = true := by
    rcases h with h | h <;> simp [h, tokenFalsy]
  refine ⟨?_, ?_, ?_, ?_⟩ <;> simp [authenticate, get_auth_headers, hfalsy]

/-- Witness for C10: a 201 answer with no `token` field wipes the previously
held token `"old"` (the stored expiry 999 survives) and breaks
`get_auth_headers`. -/
theorem claim_C10_witness :
    (authenticate ⟨some "old", some 999⟩ 0 (.http 201 ⟨none, some 60, none⟩)).2 =
      .error .noToken ∧
    (authenticate ⟨some "old", some 999⟩ 0 (.http 201 ⟨none, some 60, none⟩)).1.token =
      none ∧
    (authenticate ⟨some "old", some 999⟩ 0
        (.http 201 ⟨none, some 60, none⟩)).1.token_expires_at = some 999 ∧
    get_auth_headers (authenticate ⟨some "old", some 999⟩ 0
        (.http 201 ⟨none, some 60, none⟩)).1 = .error .noTokenAvailable :=
  claim_C10_missing_token_clobbers ⟨some "old", some 999⟩ 0 ⟨none, some 60, none⟩
    (Or.inl rfl)

end CephMcp
